import Mathlib

/-!
Shallow embedding, in Lean 4, of the decision pipeline of the
BigQuery-Looker-Langchain churn system.

Source files embedded here:
  * agent_reasoning.py — the Pydantic record classes
    RootCauseAnalysis / ActionDecision, the two deterministic keyword fallback
    parsers, and the three-tier diagnose/select control flow of
    `_analyze_root_cause` and `_determine_action`;
  * actions_module.py — `ActionExecutor.execute_action` dispatch and its
    exception-to-failed-result boundary;
  * main.py — `AgenticAIChurnSystem.run_churn_analysis_cycle` and the two
    per-item processors `_process_customer_risk` / `_process_anomaly`,
    together with `_detect_all_anomalies`.

External collaborators (warehouse, dashboard, reasoning backend, channel
clients) are modelled as explicit parameters: each call site that may raise a
Python exception is given type `Except String α`, the error carrying `str(e)`.
Python dynamic values are modelled by the inductive `PyVal`; Python `dict`s by
association lists with distinct keys (first binding wins, as in a dict).
Confidence scores are exact in the source (0.0 and 0.5 are representable
floating-point values) and are modelled by ℚ.
-/

/-- Dynamic Python value, covering the shapes that flow through the embedded
code: None, numbers, strings, lists and string-keyed dicts. -/
inductive PyVal where
  | none : PyVal
  | int : Int → PyVal
  | rat : ℚ → PyVal
  | str : String → PyVal
  | list : List PyVal → PyVal
  | dict : List (String × PyVal) → PyVal
deriving Repr

/-- Python dict read through `.get(key)` — returns None when the key is
absent. -/
def pyGet (d : List (String × PyVal)) (k : String) : PyVal :=
  match d.lookup k with
  | some v => v
  | Option.none => PyVal.none

/-- Python dict read through `.get(key, default)`. -/
def pyGetD (d : List (String × PyVal)) (k : String) (dflt : PyVal) : PyVal :=
  match d.lookup k with
  | some v => v
  | Option.none => dflt

/-- Python dict item assignment `d[k] = v` (overwrites an existing binding,
appends otherwise). -/
def pySet (d : List (String × PyVal)) (k : String) (v : PyVal) :
    List (String × PyVal) :=
  match d with
  | [] => [(k, v)]
  | (l, w) :: t => if l = k then (k, v) :: t else (l, w) :: pySet t k v

/-- Python truthiness of a value, as used by `if not customer_data` and
`if kpi_context`. -/
def pyTruthy : PyVal → Bool
  | .none => false
  | .int n => n ≠ 0
  | .rat q => q ≠ 0
  | .str s => s ≠ ""
  | .list xs => ¬ xs.isEmpty
  | .dict kvs => ¬ kvs.isEmpty

/-- listStarts n h is true when n is an initial run of h (helper for the
Python substring test). -/
def listStarts : List Char → List Char → Bool
  | [], _ => true
  | _ :: _, [] => false
  | a :: as, b :: bs => a = b && listStarts as bs

/-- listSub n h is true when n occurs contiguously inside h. -/
def listSub (needle : List Char) : List Char → Bool
  | [] => needle.isEmpty
  | b :: t => listStarts needle (b :: t) || listSub needle t

/-- Python substring test `needle in hay` on strings. -/
def pyIn (needle hay : String) : Bool := listSub needle.data hay.data

/-- Python `str.lower()`. The keywords scanned by the fallback parsers are
ASCII, for which ASCII lowering agrees with Python lowering. -/
def pyLower (s : String) : String := String.mk (s.data.map Char.toLower)

/-- Python `any(word in content for word in words)` as written in both
fallback parsers. -/
def pyAnyIn (words : List String) (hay : String) : Bool :=
  words.any (fun w => pyIn w hay)

/-- Structured output record for root cause analysis (Pydantic model
`RootCauseAnalysis`, agent_reasoning.py lines 35-41). The `confidence` field
is declared `float` with no range validator, so the strict parser accepts any
numeric value for it. -/
structure RootCauseAnalysis where
  primary_cause : String
  contributing_factors : List String
  severity : String
  recommended_actions : List String
  confidence : ℚ
deriving Repr, DecidableEq

/-- Structured output record for action decisions (Pydantic model
`ActionDecision`, agent_reasoning.py lines 27-33). `action_details` is an
open dict; `confidence` is an unvalidated float. -/
structure ActionDecision where
  action_type : String
  priority : String
  reason : String
  action_details : List (String × PyVal)
  confidence : ℚ
deriving Repr

/-- Fallback parser `_parse_root_cause_fallback` (agent_reasoning.py lines
278-309). The body is pure string scanning and cannot raise, so the inner
try/except boundary of the source is dead and the function is total. -/
def parse_root_cause_fallback (response_content : String) : RootCauseAnalysis :=
  let content_lower := pyLower response_content
  let severity :=
    if pyAnyIn ["critical", "severe", "urgent"] content_lower then "critical"
    else if pyAnyIn ["high", "significant"] content_lower then "high"
    else if pyAnyIn ["medium", "moderate"] content_lower then "medium"
    else "low"
  { primary_cause := "Analysis completed (fallback parsing)"
    contributing_factors := ["Unable to parse specific factors"]
    severity := severity
    recommended_actions := ["Review customer manually"]
    confidence := 1/2 }

/-- Fallback parser `_parse_action_fallback` (agent_reasoning.py lines
311-349). Total for the same reason as the root-cause fallback. -/
def parse_action_fallback (response_content : String) : ActionDecision :=
  let content_lower := pyLower response_content
  let action_type :=
    if pyIn "slack" content_lower then "slack_alert"
    else if pyIn "jira" content_lower || pyIn "ticket" content_lower then
      "jira_ticket"
    else if pyIn "email" content_lower then "email"
    else "none"
  let priority :=
    if pyAnyIn ["high", "urgent", "critical"] content_lower then "high"
    else if pyAnyIn ["medium", "moderate"] content_lower then "medium"
    else "low"
  { action_type := action_type
    priority := priority
    reason := "Analysis completed (fallback parsing)"
    action_details := []
    confidence := 1/2 }

/-- Diagnosis returned on the total-failure tier of `_analyze_root_cause`
(agent_reasoning.py lines 200-206). -/
def failedRootCause : RootCauseAnalysis :=
  { primary_cause := "Analysis failed"
    contributing_factors := []
    severity := "unknown"
    recommended_actions := []
    confidence := 0 }

/-- Decision returned on the total-failure tier of `_determine_action`
(agent_reasoning.py lines 270-276). -/
def failedDecision : ActionDecision :=
  { action_type := "none"
    priority := "low"
    reason := "Analysis failed"
    action_details := []
    confidence := 0 }

/-- `_analyze_root_cause` (agent_reasoning.py lines 142-206). The prompt
construction from the analysis context (lines 146-184) is total — it formats
a constant template over serialisable values — and the result depends on the
context only through the backend response, so the function is parametrised
directly by the outcome of `self.llm.invoke` (`backend`: exception or raw
response text) and by the outcome of `self.cause_parser.parse` on that text
(`strictParse`: a parsed record, or a parse failure modelled as `Option.none`).
Everything from the formatting through the parse sits inside the outer try,
whose handler yields `failedRootCause`; a parse failure is caught by the
inner handler and routed to the keyword fallback. -/
def analyze_root_cause (backend : Except String String)
    (strictParse : String → Option RootCauseAnalysis) : RootCauseAnalysis :=
  match backend with
  | .error _ => failedRootCause
  | .ok content =>
    match strictParse content with
    | some rc => rc
    | Option.none => parse_root_cause_fallback content

/-- `_determine_action` (agent_reasoning.py lines 208-276), parametrised the
same way as `analyze_root_cause` with `self.action_parser.parse` as the
strict parser. -/
def determine_action (backend : Except String String)
    (strictParse : String → Option ActionDecision) : ActionDecision :=
  match backend with
  | .error _ => failedDecision
  | .ok content =>
    match strictParse content with
    | some d => d
    | Option.none => parse_action_fallback content

/-- Python subscript `v[i]` with an integer index, as in
`prediction_data.get("predicted_churned_flag_probs", [0, 0])[1]`
(agent_reasoning.py line 124): lists and strings index positionally and raise
IndexError when too short; other values raise a TypeError (our dicts are
string-keyed, so an integer subscript on one raises KeyError). -/
def pyIndex (v : PyVal) (i : Nat) : Except String PyVal :=
  match v with
  | .list xs =>
    match xs.get? i with
    | some x => Except.ok x
    | Option.none => Except.error "IndexError: list index out of range"
  | .str s =>
    match s.data.get? i with
    | some c => Except.ok (PyVal.str (String.mk [c]))
    | Option.none => Except.error "IndexError: string index out of range"
  | .dict _ => Except.error "KeyError: integer key absent"
  | _ => Except.error "TypeError: object is not subscriptable"

/-- Python membership `k in v` for a string k: key test on dicts, substring
test on strings, element test on lists, TypeError otherwise. -/
def pyContains (v : PyVal) (k : String) : Except String Bool :=
  match v with
  | .dict kvs => Except.ok (kvs.any (fun kv => kv.1 = k))
  | .str s => Except.ok (pyIn k s)
  | .list xs =>
    Except.ok (xs.any (fun x => match x with | .str t => t = k | _ => false))
  | _ => Except.error "TypeError: argument is not iterable"

/-- Python subscript `v[k]` with a string key: dict lookup (KeyError when
absent), TypeError on any other value. -/
def pySubscript (v : PyVal) (k : String) : Except String PyVal :=
  match v with
  | .dict kvs =>
    match kvs.lookup k with
    | some w => Except.ok w
    | Option.none => Except.error ("KeyError: " ++ k)
  | _ => Except.error "TypeError: value is not subscriptable by a string"

/-- Python `v.items()`: pairs of a dict, AttributeError otherwise. -/
def pyItems (v : PyVal) : Except String (List (String × PyVal)) :=
  match v with
  | .dict kvs => Except.ok kvs
  | _ => Except.error "AttributeError: value has no attribute items"

/-- Analysis context record produced by `_prepare_analysis_context`
(agent_reasoning.py lines 135-140). -/
structure AnalysisContext where
  customer_metrics : List (String × PyVal)
  prediction_metrics : List (String × PyVal)
  kpi_metrics : List (String × PyVal)
  analysis_timestamp : String
deriving Repr

/-- The eight customer fields read by `_prepare_analysis_context`
(agent_reasoning.py lines 111-120), each through `.get` so that an absent
field becomes an explicit None entry. -/
def customerMetricKeys : List String :=
  ["customer_id", "monthly_revenue", "total_revenue", "days_since_last_login",
   "login_frequency_30d", "purchase_frequency_30d", "support_tickets_30d",
   "feature_usage_count"]

/-- Loop body of the KPI extraction of `_prepare_analysis_context`
(agent_reasoning.py lines 131-133): for one `kpi_name, kpi_data` pair, keep
`kpi_data["data"]` in the accumulator when `kpi_data and "data" in kpi_data`,
each fallible Python operation routed through the Except helpers. -/
def kpiEntryStep (acc : List (String × PyVal)) (kv : String × PyVal) :
    Except String (List (String × PyVal)) := do
  let keep ← if pyTruthy kv.2 then pyContains kv.2 "data" else pure false
  if keep then
    let datum ← pySubscript kv.2 "data"
    pure (pySet acc kv.1 datum)
  else pure acc

/-- KPI extraction of `_prepare_analysis_context` (agent_reasoning.py lines
128-133): `if kpi_context and "kpis" in kpi_context`, then fold
`kpiEntryStep` over `kpi_context["kpis"].items()`. -/
def extract_kpi_metrics (kpi_context : PyVal) :
    Except String (List (String × PyVal)) := do
  let cond ← if pyTruthy kpi_context then pyContains kpi_context "kpis"
             else pure false
  if cond then
    let kpis ← pySubscript kpi_context "kpis"
    let pairs ← pyItems kpis
    pairs.foldlM kpiEntryStep []
  else pure []

/-- `_prepare_analysis_context` (agent_reasoning.py lines 107-140).
`customer_data` and `prediction_data` are dicts as at both call sites;
`kpi_context` is kept fully dynamic because the code guards it with a
truthiness test; `ts` stands for `datetime.now().isoformat()`. A raised
exception (for example the IndexError from `[1]` on a short probability
list) is returned as `Except.error`. -/
def prepare_analysis_context (customer_data prediction_data :
    List (String × PyVal)) (kpi_context : PyVal) (ts : String) :
    Except String AnalysisContext := do
  let customer_metrics := customerMetricKeys.map
    (fun k => (k, pyGet customer_data k))
  let probs := pyGetD prediction_data "predicted_churned_flag_probs"
    (PyVal.list [PyVal.int 0, PyVal.int 0])
  let churn_probability ← pyIndex probs 1
  let prediction_metrics :=
    [("churn_probability", churn_probability),
     ("predicted_churn", pyGetD prediction_data "predicted_churned_flag"
        (PyVal.int 0))]
  let kpi_metrics ← extract_kpi_metrics kpi_context
  pure { customer_metrics := customer_metrics
         prediction_metrics := prediction_metrics
         kpi_metrics := kpi_metrics
         analysis_timestamp := ts }

/-- Result dict of one channel helper (`_send_slack_alert`,
`_create_jira_ticket`, `_send_email`): the orchestrator observes only
`status`; channel-specific keys are not modelled. -/
structure ActionRaw where
  action_type : String
  status : String
  reason : String
deriving Repr

/-- Result dict of `ActionExecutor.execute_action` after the
`result.update` of lines 109-113 (success of the try) or the handler dict of
lines 119-126 (which carries no confidence key, hence the Option). -/
structure ActionResult where
  action_type : String
  status : String
  reason : String
  customer_id : PyVal
  priority : String
  confidence : Option ℚ
deriving Repr

/-- `ActionExecutor.execute_action` (actions_module.py lines 69-126).
`channelSend` models the three channel helpers, selected by action type; each
helper catches its own exceptions and returns a failed dict, but the outer
try/except of lines 86-126 is kept visible: an exception anywhere in the
dispatch (`Except.error`) is converted to a failed result, so the function is
total and always yields a status. `_log_action_outcome` has no observable
effect on the cycle accumulator (it catches every exception internally) and
is not modelled. -/
def execute_action (channelSend : String → Except String ActionRaw)
    (action_decision : ActionDecision) (customer_id : PyVal) : ActionResult :=
  let action_type := action_decision.action_type
  let priority := action_decision.priority
  let attempt : Except String ActionRaw :=
    if action_type = "slack_alert" then channelSend "slack_alert"
    else if action_type = "jira_ticket" then channelSend "jira_ticket"
    else if action_type = "email" then channelSend "email"
    else if action_type = "none" then
      Except.ok { action_type := "none", status := "skipped",
                  reason := "No action required" }
    else
      Except.ok { action_type := action_type, status := "failed",
                  reason := "Unknown action type: " ++ action_type }
  match attempt with
  | .ok r =>
    { action_type := r.action_type, status := r.status, reason := r.reason,
      customer_id := customer_id, priority := priority,
      confidence := some action_decision.confidence }
  | .error e =>
    { action_type := action_type, status := "failed", reason := e,
      customer_id := customer_id, priority := priority,
      confidence := Option.none }

/-- Python `str()` rendering as interpolated into error messages. The
customer ids that reach it in the embedded flows are scalars; container
rendering is abbreviated — no property below inspects it. -/
def pyStr : PyVal → String
  | .none => "None"
  | .int n => toString n
  | .rat q => toString q
  | .str s => s
  | .list _ => "<list>"
  | .dict _ => "<dict>"

/-- Mutable accumulator dict `cycle_results` of `run_churn_analysis_cycle`
(main.py lines 64-73). `cycle_end` and `cycle_duration_seconds` are keys that
exist only once lines 119-121 run, hence Options initialised to none. -/
structure CycleResult where
  cycle_start : String
  customers_analyzed : Nat
  churn_predictions : Nat
  anomalies_detected : Nat
  actions_executed : Nat
  successful_actions : Nat
  failed_actions : Nat
  errors : List String
  cycle_end : Option String
  cycle_duration_seconds : Option ℚ
deriving Repr, DecidableEq

/-- One cycle worth of collaborator behaviour, mirroring the call sites of
main.py. Rows of the extracted frame are opaque (only their count is read);
prediction and anomaly rows are dicts; `get_customer_context` is total in the
source (its own handler returns an empty dict); the two analyze entry points
re-raise (agent_reasoning.py lines 103-105 and 385-387), hence Except; their
observable output is the action_decision entry of the returned dict.
`channelSend` is the channel-helper behaviour fed to `execute_action`, keyed
by the customer dict. `now_end` and `duration` stand for the finalisation
timestamps of lines 119-121. -/
structure CycleEnv where
  now_start : String
  now_end : String
  duration : ℚ
  extract_churn_data : Except String (List PyVal)
  predict_churn : Except String (List (List (String × PyVal)))
  detect_anomalies : String → Except String (List (List (String × PyVal)))
  get_churn_kpis : Except String PyVal
  get_customer_context : PyVal → List (String × PyVal)
  analyze_churn_risk :
    List (String × PyVal) → List (String × PyVal) → PyVal →
      Except String ActionDecision
  analyze_anomaly :
    List (String × PyVal) → List (String × PyVal) → PyVal →
      Except String ActionDecision
  channelSend : List (String × PyVal) → String → Except String ActionRaw

/-- Metric list of `_detect_all_anomalies` (main.py lines 139-144). -/
def metrics_to_monitor : List String :=
  ["login_frequency_30d", "purchase_frequency_30d", "support_tickets_30d",
   "monthly_revenue"]

/-- `_detect_all_anomalies` (main.py lines 134-156): per-metric failures are
caught and skipped (a warning only), each returned row gets the metric name
written into it, and the function returns a plain Python list. Total. -/
def detect_all_anomalies (env : CycleEnv) : List (List (String × PyVal)) :=
  metrics_to_monitor.foldl (fun all metric =>
    match env.detect_anomalies metric with
    | .ok rows => all ++ rows.map (fun r => pySet r "metric_name" (PyVal.str metric))
    | .error _ => all) []

/-- `_process_customer_risk` (main.py lines 158-194) threading the
accumulator explicitly. An empty customer-context dict is falsy, so the item
is skipped with the accumulator untouched. The only operation that can raise
is `analyze_churn_risk`; a raise carries the accumulator state at that point
(nothing has been incremented yet) to the per-item handler.
`_log_action_outcome` catches all its exceptions and does not touch the
accumulator, so it has no footprint here. -/
def process_customer_risk (env : CycleEnv) (kpi_context : PyVal)
    (customer_prediction : List (String × PyVal)) (acc : CycleResult) :
    Except (String × CycleResult) CycleResult :=
  let customer_id := pyGet customer_prediction "customer_id"
  let customer_data := env.get_customer_context customer_id
  if ¬ pyTruthy (PyVal.dict customer_data) then Except.ok acc
  else
    match env.analyze_churn_risk customer_data customer_prediction kpi_context with
    | .error e => Except.error (e, acc)
    | .ok action_decision =>
      if action_decision.action_type ≠ "none" then
        let acc1 := { acc with actions_executed := acc.actions_executed + 1 }
        let action_result :=
          execute_action (env.channelSend customer_data) action_decision
            customer_id
        if action_result.status = "success" then
          Except.ok { acc1 with
            successful_actions := acc1.successful_actions + 1 }
        else
          Except.ok { acc1 with failed_actions := acc1.failed_actions + 1 }
      else Except.ok acc

/-- `_process_anomaly` (main.py lines 196-233): same shape as
`process_customer_risk` with the anomaly analysis entry point (the
metric-name read of line 200 feeds logging only). -/
def process_anomaly (env : CycleEnv) (kpi_context : PyVal)
    (anomaly : List (String × PyVal)) (acc : CycleResult) :
    Except (String × CycleResult) CycleResult :=
  let customer_id := pyGet anomaly "customer_id"
  let customer_data := env.get_customer_context customer_id
  if ¬ pyTruthy (PyVal.dict customer_data) then Except.ok acc
  else
    match env.analyze_anomaly customer_data anomaly kpi_context with
    | .error e => Except.error (e, acc)
    | .ok action_decision =>
      if action_decision.action_type ≠ "none" then
        let acc1 := { acc with actions_executed := acc.actions_executed + 1 }
        let action_result :=
          execute_action (env.channelSend customer_data) action_decision
            customer_id
        if action_result.status = "success" then
          Except.ok { acc1 with
            successful_actions := acc1.successful_actions + 1 }
        else
          Except.ok { acc1 with failed_actions := acc1.failed_actions + 1 }
      else Except.ok acc

/-- Per-item try/except of the Step 5 loop (main.py lines 101-107): a raised
exception becomes one appended error string and the loop continues. -/
def process_customer_risk_item (env : CycleEnv) (kpi_context : PyVal)
    (acc : CycleResult) (customer_prediction : List (String × PyVal)) :
    CycleResult :=
  match process_customer_risk env kpi_context customer_prediction acc with
  | .ok acc2 => acc2
  | .error (e, accAt) =>
    { accAt with errors := accAt.errors ++
        ["Error processing customer " ++
          pyStr (pyGet customer_prediction "customer_id") ++ ": " ++ e] }

/-- Per-item try/except of the Step 6 loop (main.py lines 112-117). -/
def process_anomaly_item (env : CycleEnv) (kpi_context : PyVal)
    (acc : CycleResult) (anomaly : List (String × PyVal)) : CycleResult :=
  match process_anomaly env kpi_context anomaly acc with
  | .ok acc2 => acc2
  | .error (e, accAt) =>
    { accAt with errors := accAt.errors ++
        ["Error processing anomaly for customer " ++
          pyStr (pyGet anomaly "customer_id") ++ ": " ++ e] }

/-- `anomalies.iterrows()` at main.py line 111: `anomalies` is the plain
Python list built by `_detect_all_anomalies` (line 90), and a list has no
`iterrows` attribute, so this call raises AttributeError on every input —
`str(e)` is the message below. The anomaly loop body and the finalisation of
lines 119-121 are therefore dynamically dead code. -/
def iterrowsOnList (_anomalies : List (List (String × PyVal))) :
    Except String (List (List (String × PyVal))) :=
  Except.error "\x27list\x27 object has no attribute \x27iterrows\x27"

/-- Message format of the cycle-level handler (main.py line 129). -/
def criticalMsg (e : String) : String :=
  "Critical error in churn analysis cycle: " ++ e

/-- Initial accumulator of main.py lines 64-73. -/
def initCycleResult (env : CycleEnv) : CycleResult :=
  { cycle_start := env.now_start
    customers_analyzed := 0
    churn_predictions := 0
    anomalies_detected := 0
    actions_executed := 0
    successful_actions := 0
    failed_actions := 0
    errors := []
    cycle_end := Option.none
    cycle_duration_seconds := Option.none }

/-- `run_churn_analysis_cycle` (main.py lines 54-132). The outer try of lines
75-127 is modelled by the match cascade: a raise at any stage jumps to the
handler of lines 128-132, which appends one error to the accumulator as
mutated so far and returns it — in particular without ever writing
`cycle_end` or `cycle_duration_seconds`, which lines 119-121 only reach on
the no-raise path. Step 6 always raises (see `iterrowsOnList`). -/
def run_churn_analysis_cycle (env : CycleEnv) : CycleResult :=
  let r0 := initCycleResult env
  match env.extract_churn_data with
  | .error e => { r0 with errors := r0.errors ++ [criticalMsg e] }
  | .ok churn_data =>
    let r1 := { r0 with customers_analyzed := churn_data.length }
    match env.predict_churn with
    | .error e => { r1 with errors := r1.errors ++ [criticalMsg e] }
    | .ok churn_predictions =>
      let r2 := { r1 with churn_predictions := churn_predictions.length }
      let anomalies := detect_all_anomalies env
      let r3 := { r2 with anomalies_detected := anomalies.length }
      match env.get_churn_kpis with
      | .error e => { r3 with errors := r3.errors ++ [criticalMsg e] }
      | .ok kpi_context =>
        let r4 := churn_predictions.foldl
          (process_customer_risk_item env kpi_context) r3
        match iterrowsOnList anomalies with
        | .ok rows =>
          let r5 := rows.foldl (process_anomaly_item env kpi_context) r4
          { r5 with cycle_end := some env.now_end
                    cycle_duration_seconds := some env.duration }
        | .error e => { r4 with errors := r4.errors ++ [criticalMsg e] }

/-- C5: when the backend invocation itself fails, `_analyze_root_cause`
returns the fixed failure diagnosis (primary_cause "Analysis failed", empty
factor and action lists, severity unknown, confidence 0.0) and
`_determine_action` returns the fixed failure decision (action_type none,
priority low, confidence 0.0); both are total functions of the backend
outcome, so no exception reaches the orchestrator from either operation. -/
theorem C5_backend_failure_defaults :
    (∀ (e : String) (p : String → Option RootCauseAnalysis),
      (analyze_root_cause (Except.error e) p).primary_cause = "Analysis failed" ∧
      (analyze_root_cause (Except.error e) p).contributing_factors = [] ∧
      (analyze_root_cause (Except.error e) p).severity = "unknown" ∧
      (analyze_root_cause (Except.error e) p).recommended_actions = [] ∧
      (analyze_root_cause (Except.error e) p).confidence = 0) ∧
    (∀ (e : String) (q : String → Option ActionDecision),
      (determine_action (Except.error e) q).action_type = "none" ∧
      (determine_action (Except.error e) q).priority = "low" ∧
      (determine_action (Except.error e) q).reason = "Analysis failed" ∧
      (determine_action (Except.error e) q).action_details = [] ∧
      (determine_action (Except.error e) q).confidence = 0) := by
  constructor <;> intro e p <;>
    exact ⟨rfl, rfl, rfl, rfl, rfl⟩

/-- C4: on a strict-parse failure the root-cause fallback emits the fixed
primary cause, exactly one generic contributing factor, exactly one generic
recommended action, confidence 0.5, and a severity determined by scanning the
lowercased text for the keyword sets in priority order (critical/severe/urgent
before high/significant before medium/moderate, defaulting to low); in
particular any text containing "critical" yields severity critical. -/
theorem C4_fallback_diagnosis (content : String)
    (p : String → Option RootCauseAnalysis) (hp : p content = Option.none) :
    (analyze_root_cause (Except.ok content) p).primary_cause =
        "Analysis completed (fallback parsing)" ∧
    (analyze_root_cause (Except.ok content) p).contributing_factors.length = 1 ∧
    (analyze_root_cause (Except.ok content) p).recommended_actions.length = 1 ∧
    (analyze_root_cause (Except.ok content) p).confidence = 1/2 ∧
    (pyAnyIn ["critical", "severe", "urgent"] (pyLower content) = true →
      (analyze_root_cause (Except.ok content) p).severity = "critical") ∧
    (pyIn "critical" (pyLower content) = true →
      (analyze_root_cause (Except.ok content) p).severity = "critical") ∧
    (pyAnyIn ["critical", "severe", "urgent"] (pyLower content) = false →
      pyAnyIn ["high", "significant"] (pyLower content) = true →
      (analyze_root_cause (Except.ok content) p).severity = "high") ∧
    (pyAnyIn ["critical", "severe", "urgent"] (pyLower content) = false →
      pyAnyIn ["high", "significant"] (pyLower content) = false →
      pyAnyIn ["medium", "moderate"] (pyLower content) = true →
      (analyze_root_cause (Except.ok content) p).severity = "medium") ∧
    (pyAnyIn ["critical", "severe", "urgent"] (pyLower content) = false →
      pyAnyIn ["high", "significant"] (pyLower content) = false →
      pyAnyIn ["medium", "moderate"] (pyLower content) = false →
      (analyze_root_cause (Except.ok content) p).severity = "low") := by
  have hres : analyze_root_cause (Except.ok content) p =
      parse_root_cause_fallback content := by
    simp [analyze_root_cause, hp]
  rw [hres]
  refine ⟨rfl, rfl, rfl, rfl, ?_, ?_, ?_, ?_, ?_⟩
  · intro h1; simp [parse_root_cause_fallback, h1]
  · intro h1
    have h2 : pyAnyIn ["critical", "severe", "urgent"] (pyLower content) = true := by
      simp [pyAnyIn, h1]
    simp [parse_root_cause_fallback, h2]
  · intro h1 h2; simp [parse_root_cause_fallback, h1, h2]
  · intro h1 h2 h3; simp [parse_root_cause_fallback, h1, h2, h3]
  · intro h1 h2 h3; simp [parse_root_cause_fallback, h1, h2, h3]

/-- Witness for C4 at a concrete multi-keyword input: the fallback severity
of a response containing both "critical" and "high" is "critical". -/
theorem C4_fallback_diagnosis_witness :
    (analyze_root_cause (Except.ok "This is CRITICAL and high")
        (fun _ => Option.none)).severity = "critical" ∧
    (analyze_root_cause (Except.ok "This is CRITICAL and high")
        (fun _ => Option.none)).confidence = 1/2 := by
  have h := C4_fallback_diagnosis "This is CRITICAL and high"
    (fun _ => Option.none) rfl
  exact ⟨h.2.2.2.2.2.1 (by decide), h.2.2.2.1⟩

/-- C2 counterexample: a backend response that fails strict parse and
contains "jira" together with "slack" is mapped by the action fallback to
slack_alert, not jira_ticket — the "slack" branch is checked first
(agent_reasoning.py lines 317-318), so "jira" does not win regardless of
other keywords. -/
theorem C2_counterexample :
    pyIn "jira" (pyLower "Send a Slack alert and open a Jira ticket") = true ∧
    (determine_action
        (Except.ok "Send a Slack alert and open a Jira ticket")
        (fun _ => Option.none)).action_type = "slack_alert" ∧
    "slack_alert" ≠ "jira_ticket" := by
  refine ⟨by decide, rfl, by decide⟩

/-- C2 (amended): for a response failing strict parse, the fallback returns
action_type jira_ticket whenever the lowercased text contains "jira",
provided it does not also contain "slack"; when "slack" is present the
fallback returns slack_alert even if "jira" is present. -/
theorem C2_jira_fallback (content : String)
    (p : String → Option ActionDecision) (hp : p content = Option.none) :
    (pyIn "slack" (pyLower content) = false →
      pyIn "jira" (pyLower content) = true →
      (determine_action (Except.ok content) p).action_type = "jira_ticket") ∧
    (pyIn "slack" (pyLower content) = true →
      (determine_action (Except.ok content) p).action_type = "slack_alert") := by
  have hres : determine_action (Except.ok content) p =
      parse_action_fallback content := by
    simp [determine_action, hp]
  rw [hres]
  constructor
  · intro hs hj; simp [parse_action_fallback, hs, hj]
  · intro hs; simp [parse_action_fallback, hs]

/-- Witness for C2 (amended) at a concrete input: "open a JIRA issue"
contains "jira", no "slack", fails strict parse, and yields jira_ticket. -/
theorem C2_jira_fallback_witness :
    (determine_action (Except.ok "open a JIRA issue")
        (fun _ => Option.none)).action_type = "jira_ticket" :=
  (C2_jira_fallback "open a JIRA issue" (fun _ => Option.none) rfl).1
    (by decide) (by decide)

/-- C3 counterexample: the Pydantic confidence field carries no range
validator, so a backend response whose strict parse succeeds with a
self-reported confidence of 2.0 is returned verbatim by the diagnoser, with
confidence outside [0,1]. -/
theorem C3_counterexample :
    ¬ ((analyze_root_cause (Except.ok "confidence: 2.0")
        (fun _ => some
          { primary_cause := "Low engagement"
            contributing_factors := []
            severity := "high"
            recommended_actions := []
            confidence := 2 })).confidence ≤ 1) := by
  simp only [analyze_root_cause]
  norm_num

/-- C3 (amended): on the keyword-fallback path both operations return
confidence exactly 0.5 and on the total-failure path exactly 0.0, and both
values lie in [0,1]; on a strict-parse success, however, the backend record
is returned verbatim, confidence not re-validated (see the counterexample
for a value outside [0,1]). -/
theorem C3_confidence_tiers :
    (∀ (e : String) (p : String → Option RootCauseAnalysis),
      (analyze_root_cause (Except.error e) p).confidence = 0) ∧
    (∀ (content : String) (p : String → Option RootCauseAnalysis),
      p content = Option.none →
      (analyze_root_cause (Except.ok content) p).confidence = 1/2) ∧
    (∀ (content : String) (p : String → Option RootCauseAnalysis)
        (rc : RootCauseAnalysis), p content = some rc →
      analyze_root_cause (Except.ok content) p = rc) ∧
    (∀ (e : String) (q : String → Option ActionDecision),
      (determine_action (Except.error e) q).confidence = 0) ∧
    (∀ (content : String) (q : String → Option ActionDecision),
      q content = Option.none →
      (determine_action (Except.ok content) q).confidence = 1/2) ∧
    (∀ (content : String) (q : String → Option ActionDecision)
        (d : ActionDecision), q content = some d →
      determine_action (Except.ok content) q = d) ∧
    ((0:ℚ) ≤ 0 ∧ (0:ℚ) ≤ 1 ∧ (0:ℚ) ≤ 1/2 ∧ (1/2:ℚ) ≤ 1) := by
  refine ⟨fun e p => rfl, ?_, ?_, fun e q => rfl, ?_, ?_, by norm_num⟩
  · intro content p hp; simp [analyze_root_cause, hp, parse_root_cause_fallback]
  · intro content p rc hp; simp [analyze_root_cause, hp]
  · intro content q hq; simp [determine_action, hq, parse_action_fallback]
  · intro content q d hq; simp [determine_action, hq]

/-- Witness for C3 (amended): the fallback tier at a concrete unparseable
response gives confidence 0.5, and the failure tier at a concrete backend
error gives 0.0. -/
theorem C3_confidence_tiers_witness :
    (analyze_root_cause (Except.ok "free text")
      (fun _ => Option.none)).confidence = 1/2 ∧
    (determine_action (Except.error "quota exceeded")
      (fun _ => Option.none)).confidence = 0 :=
  ⟨C3_confidence_tiers.2.1 "free text" (fun _ => Option.none) rfl,
   C3_confidence_tiers.2.2.2.1 "quota exceeded" (fun _ => Option.none)⟩

/-- Test for the dict constructor of PyVal. -/
def isDict : PyVal → Bool
  | .dict _ => true
  | _ => false

/-- Well-formedness of the signal record for the probability extraction of
agent_reasoning.py line 124: the probability field, when present, is a list
with at least two entries (the shape the churn model produces); when absent
the code substitutes the two-element default `[0, 0]`. -/
def probsWellFormed (prediction_data : List (String × PyVal)) : Bool :=
  match prediction_data.lookup "predicted_churned_flag_probs" with
  | some (PyVal.list xs) => decide (2 ≤ xs.length)
  | some _ => false
  | Option.none => true

/-- Well-formedness of the KPI snapshot for the extraction loop of
agent_reasoning.py lines 128-133: the snapshot is absent (None) or a dict;
its "kpis" entry, when present, is a dict each of whose truthy values is
itself a dict (the shape the KPI collaborator produces). -/
def kpiWellFormed : PyVal → Bool
  | PyVal.none => true
  | PyVal.dict kvs =>
    (match kvs.lookup "kpis" with
     | some (PyVal.dict entries) =>
       entries.all (fun kv => !(pyTruthy kv.2) || isDict kv.2)
     | some _ => false
     | Option.none => true)
  | _ => false

lemma lookup_map_keys (f : String → PyVal) :
    ∀ (keys : List String) (k : String), k ∈ keys →
      (keys.map (fun l => (l, f l))).lookup k = some (f k) := by
  intro keys
  induction keys with
  | nil => intro k hk; cases hk
  | cons a t ih =>
    intro k hk
    by_cases h : k = a
    · subst h; simp [List.lookup]
    · have hk2 : k ∈ t := by
        cases hk with
        | head => exact absurd rfl h
        | tail _ h2 => exact h2
      have hb : (k == a) = false := by simp [h]
      simp only [List.map_cons, List.lookup, hb]
      exact ih k hk2

lemma lookup_of_anyKey {d : List (String × PyVal)} {k : String}
    (h : d.any (fun kv => kv.1 = k) = true) : ∃ w, d.lookup k = some w := by
  induction d with
  | nil => simp at h
  | cons a t ih =>
    by_cases hk : a.1 = k
    · refine ⟨a.2, ?_⟩
      have hb : (k == a.1) = true := by simp [hk.symm]
      simp [List.lookup, hb]
    · have h2 : t.any (fun kv => kv.1 = k) = true := by
        simpa [List.any_cons, hk] using h
      rcases ih h2 with ⟨w, hw⟩
      refine ⟨w, ?_⟩
      have hne : ¬ k = a.1 := fun hh => hk (Eq.symm hh)
      have hb : (k == a.1) = false := by simp [hne]
      simp only [List.lookup, hb]
      exact hw

lemma kpiEntryStep_ok (acc : List (String × PyVal)) (kv : String × PyVal)
    (h : (!(pyTruthy kv.2) || isDict kv.2) = true) :
    ∃ l, kpiEntryStep acc kv = Except.ok l := by
  by_cases ht : pyTruthy kv.2 = true
  · have hd : isDict kv.2 = true := by simpa [ht] using h
    obtain ⟨entries, hkv⟩ : ∃ entries, kv.2 = PyVal.dict entries := by
      cases hv : kv.2 <;> simp [hv, isDict] at hd ⊢
    rw [hkv] at ht
    by_cases hc : entries.any (fun e => e.1 = "data") = true
    · obtain ⟨w, hw⟩ := lookup_of_anyKey hc
      refine ⟨pySet acc kv.1 w, ?_⟩
      simp only [kpiEntryStep, ht, hkv, pyContains, hc, pySubscript, hw]
      rfl
    · refine ⟨acc, ?_⟩
      simp only [kpiEntryStep, ht, hkv, pyContains]
      have hc2 : (entries.any fun e => decide (e.1 = "data")) = false :=
        Bool.eq_false_iff.mpr (fun hcc => hc hcc)
      simp only [hc2]
      rfl
  · refine ⟨acc, ?_⟩
    simp only [kpiEntryStep, ht]
    rfl

lemma kpiFold_ok :
    ∀ (entries : List (String × PyVal)),
      entries.all (fun kv => !(pyTruthy kv.2) || isDict kv.2) = true →
      ∀ acc, ∃ l, entries.foldlM kpiEntryStep acc = Except.ok l := by
  intro entries
  induction entries with
  | nil => intro _ acc; exact ⟨acc, rfl⟩
  | cons a t ih =>
    intro h acc
    rw [List.all_cons, Bool.and_eq_true] at h
    obtain ⟨m, hm⟩ := kpiEntryStep_ok acc a h.1
    obtain ⟨l, hl⟩ := ih h.2 m
    refine ⟨l, ?_⟩
    rw [List.foldlM_cons, hm]
    exact hl

lemma anyKey_eq_lookup_isSome (d : List (String × PyVal)) (k : String) :
    d.any (fun kv => kv.1 = k) = (d.lookup k).isSome := by
  induction d with
  | nil => rfl
  | cons a t ih =>
    by_cases hk : a.1 = k
    · have hb : (k == a.1) = true := by simp [hk.symm]
      simp [List.any_cons, List.lookup, hb, hk]
    · have hne : ¬ k = a.1 := fun hh => hk (Eq.symm hh)
      have hb : (k == a.1) = false := by simp [hne]
      simp [List.any_cons, List.lookup, hb, hk, ih]

lemma extract_kpi_ok (v : PyVal) (hk : kpiWellFormed v = true) :
    ∃ l, extract_kpi_metrics v = Except.ok l := by
  cases v with
  | none => exact ⟨[], rfl⟩
  | int n => simp [kpiWellFormed] at hk
  | rat q => simp [kpiWellFormed] at hk
  | str s => simp [kpiWellFormed] at hk
  | list xs => simp [kpiWellFormed] at hk
  | dict kvs =>
    by_cases hemp : kvs.isEmpty = true
    · refine ⟨[], ?_⟩
      have ht : pyTruthy (PyVal.dict kvs) = false := by simp [pyTruthy, hemp]
      simp only [extract_kpi_metrics, ht]
      rfl
    · have ht : pyTruthy (PyVal.dict kvs) = true := by
        simp [pyTruthy]
        intro hcc
        subst hcc
        exact hemp rfl
      cases hkey : kvs.lookup "kpis" with
      | none =>
        refine ⟨[], ?_⟩
        have hany : kvs.any (fun kv => kv.1 = "kpis") = false := by
          rw [anyKey_eq_lookup_isSome, hkey]; rfl
        simp only [extract_kpi_metrics, ht, pyContains, hany]
        rfl
      | some w =>
        cases w with
        | dict entries =>
          have hall : entries.all
              (fun kv => !(pyTruthy kv.2) || isDict kv.2) = true := by
            simpa [kpiWellFormed, hkey] using hk
          have hany : kvs.any (fun kv => kv.1 = "kpis") = true := by
            rw [anyKey_eq_lookup_isSome, hkey]; rfl
          obtain ⟨l, hl⟩ := kpiFold_ok entries hall []
          refine ⟨l, ?_⟩
          simp only [extract_kpi_metrics, ht, pyContains, hany, pySubscript,
            hkey, pyItems]
          simpa using hl
        | none => simp [kpiWellFormed, hkey] at hk
        | int n => simp [kpiWellFormed, hkey] at hk
        | rat q => simp [kpiWellFormed, hkey] at hk
        | str s => simp [kpiWellFormed, hkey] at hk
        | list xs => simp [kpiWellFormed, hkey] at hk

lemma probs_index_ok (prediction_data : List (String × PyVal))
    (hp : probsWellFormed prediction_data = true) :
    ∃ cp, pyIndex (pyGetD prediction_data "predicted_churned_flag_probs"
      (PyVal.list [PyVal.int 0, PyVal.int 0])) 1 = Except.ok cp := by
  cases hprobs : prediction_data.lookup "predicted_churned_flag_probs" with
  | none => exact ⟨PyVal.int 0, by simp [pyGetD, hprobs, pyIndex]⟩
  | some w =>
    cases w with
    | list xs =>
      have hlen : 2 ≤ xs.length := by
        have := hp
        simp [probsWellFormed, hprobs] at this
        exact this
      obtain ⟨cp, hcp⟩ : ∃ cp, xs[1]? = some cp := by
        cases hx : xs[1]? with
        | none =>
          have := List.getElem?_eq_none_iff.mp hx
          omega
        | some cp => exact ⟨cp, rfl⟩
      exact ⟨cp, by simp [pyGetD, hprobs, pyIndex, hcp]⟩
    | none => simp [probsWellFormed, hprobs] at hp
    | int n => simp [probsWellFormed, hprobs] at hp
    | rat q => simp [probsWellFormed, hprobs] at hp
    | str s => simp [probsWellFormed, hprobs] at hp
    | dict d => simp [probsWellFormed, hprobs] at hp

/-- C6 (amended): the context assembler cannot fail provided the signal
record's probability field, when present, is a list of length at least two,
and the KPI snapshot is absent or shaped as the KPI collaborator produces it
(a dict whose "kpis" entry, if any, is a dict of dict values); all eight
customer fields are then present in the output, absent input fields passing
through as explicit None markers, and an absent or empty KPI snapshot yields
an empty kpi_metrics mapping. As a Lean function the assembler has no side
effects. Without those shape conditions the assembler can raise — see the
counterexample. -/
theorem C6_assembler (customer_data prediction_data : List (String × PyVal))
    (kpi_context : PyVal) (ts : String)
    (hp : probsWellFormed prediction_data = true)
    (hk : kpiWellFormed kpi_context = true) :
    ∃ ctx, prepare_analysis_context customer_data prediction_data kpi_context
        ts = Except.ok ctx ∧
      (∀ k, k ∈ customerMetricKeys →
        ctx.customer_metrics.lookup k = some (pyGet customer_data k)) ∧
      (∀ k, k ∈ customerMetricKeys → customer_data.lookup k = Option.none →
        ctx.customer_metrics.lookup k = some PyVal.none) ∧
      ((kpi_context = PyVal.none ∨ kpi_context = PyVal.dict []) →
        ctx.kpi_metrics = []) ∧
      ctx.analysis_timestamp = ts := by
  obtain ⟨cp, hcp⟩ := probs_index_ok prediction_data hp
  obtain ⟨km, hkm⟩ := extract_kpi_ok kpi_context hk
  refine ⟨{ customer_metrics :=
              customerMetricKeys.map (fun k => (k, pyGet customer_data k))
            prediction_metrics :=
              [("churn_probability", cp),
               ("predicted_churn", pyGetD prediction_data
                  "predicted_churned_flag" (PyVal.int 0))]
            kpi_metrics := km
            analysis_timestamp := ts }, ?_, ?_, ?_, ?_, rfl⟩
  · simp only [prepare_analysis_context, hcp, hkm]
    rfl
  · intro k hkk
    exact lookup_map_keys (pyGet customer_data) customerMetricKeys k hkk
  · intro k hkk habs
    rw [lookup_map_keys (pyGet customer_data) customerMetricKeys k hkk]
    simp [pyGet, habs]
  · intro hc
    rcases hc with h0 | h0
    · subst h0
      have h2 : (Except.ok ([] : List (String × PyVal)) :
          Except String (List (String × PyVal))) = Except.ok km :=
        Eq.trans (Eq.symm rfl) hkm
      cases h2
      rfl
    · subst h0
      have h2 : (Except.ok ([] : List (String × PyVal)) :
          Except String (List (String × PyVal))) = Except.ok km :=
        Eq.trans (Eq.symm rfl) hkm
      cases h2
      rfl

/-- Witness for C6 (amended) at concrete inputs: a customer record with one
field, a signal record with no probability field, no KPI snapshot. -/
theorem C6_assembler_witness :
    (prepare_analysis_context [("monthly_revenue", PyVal.int 100)] []
        PyVal.none "2024-01-01T00:00:00").isOk = true := by
  obtain ⟨ctx, hctx, -⟩ :=
    C6_assembler [("monthly_revenue", PyVal.int 100)] [] PyVal.none
      "2024-01-01T00:00:00" (by decide) (by decide)
  rw [hctx]
  rfl

/-- C6 counterexample: the assembler is not total — a signal record whose
probability field is a one-element list makes line 124 of
agent_reasoning.py raise IndexError (`[0, 0]` is only substituted when the
key is absent, not when the list is short), so "never fails for any
combination" does not hold. -/
theorem C6_counterexample :
    prepare_analysis_context []
      [("predicted_churned_flag_probs", PyVal.list [PyVal.rat (9/10)])]
      (PyVal.dict []) "2024-01-01T00:00:00" =
    Except.error "IndexError: list index out of range" := by
  rfl

/-- Observation function for one Step-5 item: the status string that the
dispatch returns for this prediction row, or none when the row is skipped
(empty customer detail), the analysis raises, or the decision is
action_type "none". Mirrors the branch structure of `process_customer_risk`;
the lemma `step_counters` ties the two together. -/
def dispatchStatus (env : CycleEnv) (kpi_context : PyVal)
    (customer_prediction : List (String × PyVal)) : Option String :=
  let customer_id := pyGet customer_prediction "customer_id"
  let customer_data := env.get_customer_context customer_id
  if ¬ pyTruthy (PyVal.dict customer_data) then Option.none
  else
    match env.analyze_churn_risk customer_data customer_prediction
        kpi_context with
    | .error _ => Option.none
    | .ok d =>
      if d.action_type ≠ "none" then
        some (execute_action (env.channelSend customer_data) d
          customer_id).status
      else Option.none

lemma step_counters (env : CycleEnv) (kpi_context : PyVal) (acc : CycleResult)
    (pred : List (String × PyVal)) :
    (process_customer_risk_item env kpi_context acc pred).successful_actions =
      acc.successful_actions +
        (match dispatchStatus env kpi_context pred with
         | some s => if s = "success" then 1 else 0
         | Option.none => 0) ∧
    (process_customer_risk_item env kpi_context acc pred).failed_actions =
      acc.failed_actions +
        (match dispatchStatus env kpi_context pred with
         | some s => if s = "success" then 0 else 1
         | Option.none => 0) ∧
    (process_customer_risk_item env kpi_context acc pred).actions_executed =
      acc.actions_executed +
        (match dispatchStatus env kpi_context pred with
         | some _ => 1
         | Option.none => 0) := by
  unfold process_customer_risk_item process_customer_risk dispatchStatus
  by_cases h1 : pyTruthy (PyVal.dict (env.get_customer_context
      (pyGet pred "customer_id"))) = true
  · simp only [h1, not_true, if_neg, ite_false]
    cases h2 : env.analyze_churn_risk
        (env.get_customer_context (pyGet pred "customer_id")) pred
        kpi_context with
    | error e => simp [h1, h2]
    | ok d =>
      by_cases h3 : d.action_type = "none"
      · simp [h1, h2, h3]
      · by_cases h4 : (execute_action
            (env.channelSend (env.get_customer_context
              (pyGet pred "customer_id"))) d
            (pyGet pred "customer_id")).status = "success"
        · simp [h1, h2, h3, h4]
        · simp [h1, h2, h3, h4]
  · simp [h1]

lemma fold_counters (env : CycleEnv) (kpi_context : PyVal) :
    ∀ (preds : List (List (String × PyVal))) (acc : CycleResult),
      (preds.foldl (process_customer_risk_item env kpi_context)
          acc).successful_actions =
        acc.successful_actions +
          (preds.filterMap (dispatchStatus env kpi_context)).countP
            (fun s => s == "success") ∧
      (preds.foldl (process_customer_risk_item env kpi_context)
          acc).failed_actions =
        acc.failed_actions +
          (preds.filterMap (dispatchStatus env kpi_context)).countP
            (fun s => !(s == "success")) ∧
      (preds.foldl (process_customer_risk_item env kpi_context)
          acc).actions_executed =
        acc.actions_executed +
          (preds.filterMap (dispatchStatus env kpi_context)).length := by
  intro preds
  induction preds with
  | nil => intro acc; simp
  | cons p t ih =>
    intro acc
    have hstep := step_counters env kpi_context acc p
    have hind := ih (process_customer_risk_item env kpi_context acc p)
    obtain ⟨e1, e2, e3⟩ := hstep
    obtain ⟨i1, i2, i3⟩ := hind
    cases hd : dispatchStatus env kpi_context p with
    | none =>
      rw [hd] at e1 e2 e3
      simp at e1 e2 e3
      simp only [List.foldl_cons, List.filterMap_cons, hd]
      exact ⟨by rw [i1, e1], by rw [i2, e2], by rw [i3, e3]⟩
    | some s =>
      rw [hd] at e1 e2 e3
      simp only [List.foldl_cons, List.filterMap_cons, hd]
      by_cases hsucc : s = "success"
      · have hb : (s == "success") = true := by simp [hsucc]
        simp [hsucc] at e1 e2 e3
        refine ⟨?_, ?_, ?_⟩
        · rw [i1, e1, List.countP_cons, hb]
          have hone : (if (true : Bool) = true then 1 else 0) = 1 := rfl
          rw [hone]
          omega
        · rw [i2, e2, List.countP_cons]
          simp [hb]
        · rw [i3, e3, List.length_cons]
          omega
      · have hb : (s == "success") = false := by simp [hsucc]
        simp [hsucc] at e1 e2 e3
        refine ⟨?_, ?_, ?_⟩
        · rw [i1, e1, List.countP_cons]
          simp [hb]
        · rw [i2, e2, List.countP_cons, hb]
          have hone : (if (!false) = true then 1 else 0) = 1 := rfl
          rw [hone]
          omega
        · rw [i3, e3, List.length_cons]
          omega

lemma fold_succ (env : CycleEnv) (kpi_context : PyVal)
    (preds : List (List (String × PyVal))) (acc : CycleResult) :
    (preds.foldl (process_customer_risk_item env kpi_context)
        acc).successful_actions =
      acc.successful_actions +
        (preds.filterMap (dispatchStatus env kpi_context)).countP
          (fun s => s == "success") :=
  (fold_counters env kpi_context preds acc).1

lemma fold_fail (env : CycleEnv) (kpi_context : PyVal)
    (preds : List (List (String × PyVal))) (acc : CycleResult) :
    (preds.foldl (process_customer_risk_item env kpi_context)
        acc).failed_actions =
      acc.failed_actions +
        (preds.filterMap (dispatchStatus env kpi_context)).countP
          (fun s => !(s == "success")) :=
  (fold_counters env kpi_context preds acc).2.1

lemma fold_act (env : CycleEnv) (kpi_context : PyVal)
    (preds : List (List (String × PyVal))) (acc : CycleResult) :
    (preds.foldl (process_customer_risk_item env kpi_context)
        acc).actions_executed =
      acc.actions_executed +
        (preds.filterMap (dispatchStatus env kpi_context)).length :=
  (fold_counters env kpi_context preds acc).2.2

lemma run_counters (env : CycleEnv) (cd : List PyVal)
    (ps : List (List (String × PyVal))) (kpi : PyVal)
    (h1 : env.extract_churn_data = Except.ok cd)
    (h2 : env.predict_churn = Except.ok ps)
    (h3 : env.get_churn_kpis = Except.ok kpi) :
    (run_churn_analysis_cycle env).successful_actions =
      (ps.filterMap (dispatchStatus env kpi)).countP
        (fun s => s == "success") ∧
    (run_churn_analysis_cycle env).failed_actions =
      (ps.filterMap (dispatchStatus env kpi)).countP
        (fun s => !(s == "success")) ∧
    (run_churn_analysis_cycle env).actions_executed =
      (ps.filterMap (dispatchStatus env kpi)).length := by
  simp only [run_churn_analysis_cycle, h1, h2, h3, iterrowsOnList]
  rw [fold_succ, fold_fail, fold_act]
  simp [initCycleResult]

/-- C7: if within one cycle the dispatch returns "failed" for exactly one
dispatched item and "success" for exactly one other (the per-item dispatch
outcomes, in loop order, being exactly those two), then the returned
CycleResult counts successful_actions = 1 and failed_actions = 1: the
orchestrator increments successful_actions exactly on status "success" and
failed_actions on any other status (main.py lines 188-191). -/
theorem C7_mixed_dispatch_counts (env : CycleEnv) (cd : List PyVal)
    (ps : List (List (String × PyVal))) (kpi : PyVal)
    (h1 : env.extract_churn_data = Except.ok cd)
    (h2 : env.predict_churn = Except.ok ps)
    (h3 : env.get_churn_kpis = Except.ok kpi)
    (h4 : ps.filterMap (dispatchStatus env kpi) = ["success", "failed"] ∨
          ps.filterMap (dispatchStatus env kpi) = ["failed", "success"]) :
    (run_churn_analysis_cycle env).successful_actions = 1 ∧
    (run_churn_analysis_cycle env).failed_actions = 1 := by
  obtain ⟨r1, r2, -⟩ := run_counters env cd ps kpi h1 h2 h3
  rcases h4 with h4 | h4 <;> rw [r1, r2, h4] <;> exact ⟨rfl, rfl⟩

/-- Demonstration environment for C7: two at-risk customers, the channel
succeeding for customer A and failing for customer B. -/
def envTwoDispatch : CycleEnv :=
  { now_start := "2024-05-01T10:00:00"
    now_end := "2024-05-01T10:05:00"
    duration := 300
    extract_churn_data := Except.ok [PyVal.str "A", PyVal.str "B"]
    predict_churn := Except.ok
      [[("customer_id", PyVal.str "A")], [("customer_id", PyVal.str "B")]]
    detect_anomalies := fun _ => Except.ok []
    get_churn_kpis := Except.ok (PyVal.dict [])
    get_customer_context := fun cid => [("customer_id", cid)]
    analyze_churn_risk := fun _ _ _ => Except.ok
      { action_type := "slack_alert", priority := "high",
        reason := "High churn risk", action_details := [], confidence := 1/2 }
    analyze_anomaly := fun _ _ _ => Except.ok failedDecision
    channelSend := fun cdata _ =>
      match cdata.lookup "customer_id" with
      | some (PyVal.str "A") => Except.ok
        { action_type := "slack_alert", status := "success", reason := "sent" }
      | _ => Except.ok
        { action_type := "slack_alert", status := "failed",
          reason := "channel down" } }

/-- Witness for C7 at the concrete two-customer environment. -/
theorem C7_mixed_dispatch_counts_witness :
    (run_churn_analysis_cycle envTwoDispatch).successful_actions = 1 ∧
    (run_churn_analysis_cycle envTwoDispatch).failed_actions = 1 :=
  C7_mixed_dispatch_counts envTwoDispatch [PyVal.str "A", PyVal.str "B"]
    [[("customer_id", PyVal.str "A")], [("customer_id", PyVal.str "B")]]
    (PyVal.dict []) rfl rfl rfl (Or.inl rfl)

lemma countP_add_countP_not (p : String → Bool) :
    ∀ l : List String, l.countP p + l.countP (fun s => !(p s)) = l.length := by
  intro l
  induction l with
  | nil => rfl
  | cons a t ih =>
    rw [List.countP_cons, List.countP_cons, List.length_cons]
    cases hp : p a <;> simp [hp] <;> omega

lemma anomaly_step_invariant (env : CycleEnv) (kpi_context : PyVal)
    (acc : CycleResult) (anomaly : List (String × PyVal))
    (h : acc.actions_executed = acc.successful_actions + acc.failed_actions) :
    (process_anomaly_item env kpi_context acc anomaly).actions_executed =
      (process_anomaly_item env kpi_context acc anomaly).successful_actions +
      (process_anomaly_item env kpi_context acc anomaly).failed_actions := by
  unfold process_anomaly_item process_anomaly
  by_cases h1 : pyTruthy (PyVal.dict (env.get_customer_context
      (pyGet anomaly "customer_id"))) = true
  · simp only [h1, not_true, if_neg, ite_false]
    cases h2 : env.analyze_anomaly
        (env.get_customer_context (pyGet anomaly "customer_id")) anomaly
        kpi_context with
    | error e => simp [h1, h2, h]
    | ok d =>
      by_cases h3 : d.action_type = "none"
      · simp [h1, h2, h3, h]
      · by_cases h4 : (execute_action
            (env.channelSend (env.get_customer_context
              (pyGet anomaly "customer_id"))) d
            (pyGet anomaly "customer_id")).status = "success"
        · simp [h1, h2, h3, h4, h]
          omega
        · simp [h1, h2, h3, h4, h]
          omega
  · simp [h1, h]

/-- C10: after each processed item, and hence at cycle end, the accumulator
satisfies actions_executed = successful_actions + failed_actions. Each of the
two per-item processors preserves the equation (the dispatch, embedded as the
total function `execute_action`, always yields a status and never raises, so
every increment of actions_executed is followed in the same item by exactly
one increment of successful_actions or failed_actions), and every completed
cycle returns a CycleResult satisfying it. -/
theorem C10_counter_invariant :
    (∀ (env : CycleEnv) (kpi_context : PyVal) (acc : CycleResult)
        (pred : List (String × PyVal)),
      acc.actions_executed = acc.successful_actions + acc.failed_actions →
      (process_customer_risk_item env kpi_context acc pred).actions_executed =
        (process_customer_risk_item env kpi_context acc
            pred).successful_actions +
        (process_customer_risk_item env kpi_context acc
            pred).failed_actions) ∧
    (∀ (env : CycleEnv) (kpi_context : PyVal) (acc : CycleResult)
        (anomaly : List (String × PyVal)),
      acc.actions_executed = acc.successful_actions + acc.failed_actions →
      (process_anomaly_item env kpi_context acc anomaly).actions_executed =
        (process_anomaly_item env kpi_context acc
            anomaly).successful_actions +
        (process_anomaly_item env kpi_context acc anomaly).failed_actions) ∧
    (∀ env : CycleEnv,
      (run_churn_analysis_cycle env).actions_executed =
        (run_churn_analysis_cycle env).successful_actions +
        (run_churn_analysis_cycle env).failed_actions) := by
  refine ⟨?_, ?_, ?_⟩
  · intro env kpi_context acc pred h
    obtain ⟨e1, e2, e3⟩ := step_counters env kpi_context acc pred
    cases hd : dispatchStatus env kpi_context pred with
    | none =>
      rw [hd] at e1 e2 e3
      simp at e1 e2 e3
      rw [e3, e1, e2]
      exact h
    | some s =>
      rw [hd] at e1 e2 e3
      rw [e3, e1, e2]
      by_cases hsucc : s = "success" <;> simp [hsucc] <;> omega
  · intro env kpi_context acc anomaly h
    exact anomaly_step_invariant env kpi_context acc anomaly h
  · intro env
    cases hx : env.extract_churn_data with
    | error e => simp [run_churn_analysis_cycle, hx, initCycleResult]
    | ok cd =>
      cases hp : env.predict_churn with
      | error e => simp [run_churn_analysis_cycle, hx, hp, initCycleResult]
      | ok ps =>
        cases hk : env.get_churn_kpis with
        | error e =>
          simp [run_churn_analysis_cycle, hx, hp, hk, initCycleResult]
        | ok kpi =>
          obtain ⟨r1, r2, r3⟩ := run_counters env cd ps kpi hx hp hk
          rw [r1, r2, r3]
          exact (countP_add_countP_not (fun s => s == "success")
            (ps.filterMap (dispatchStatus env kpi))).symm

/-- Witness for C10 at a concrete accumulator and environment: one item
processed from a balanced accumulator keeps the counters balanced, and a
concrete full cycle returns balanced counters. -/
theorem C10_counter_invariant_witness :
    (initCycleResult envTwoDispatch).actions_executed =
      (initCycleResult envTwoDispatch).successful_actions +
      (initCycleResult envTwoDispatch).failed_actions ∧
    (process_customer_risk_item envTwoDispatch (PyVal.dict [])
        (initCycleResult envTwoDispatch)
        [("customer_id", PyVal.str "A")]).actions_executed =
      (process_customer_risk_item envTwoDispatch (PyVal.dict [])
          (initCycleResult envTwoDispatch)
          [("customer_id", PyVal.str "A")]).successful_actions +
      (process_customer_risk_item envTwoDispatch (PyVal.dict [])
          (initCycleResult envTwoDispatch)
          [("customer_id", PyVal.str "A")]).failed_actions ∧
    (run_churn_analysis_cycle envTwoDispatch).actions_executed =
      (run_churn_analysis_cycle envTwoDispatch).successful_actions +
      (run_churn_analysis_cycle envTwoDispatch).failed_actions :=
  ⟨rfl,
   C10_counter_invariant.1 envTwoDispatch (PyVal.dict [])
     (initCycleResult envTwoDispatch) [("customer_id", PyVal.str "A")] rfl,
   C10_counter_invariant.2.2 envTwoDispatch⟩

/-- C8: an item whose customer-detail lookup returns the empty dict is
skipped by the early return of main.py lines 166-168 / 205-207: the
accumulator is returned entirely unchanged, so nothing is added to
actions_executed (nor to any other counter) and nothing is appended to
errors. Stated for both the customer-risk and the anomaly processors. -/
theorem C8_empty_lookup_skips (env : CycleEnv) (kpi_context : PyVal)
    (acc : CycleResult) (pred anomaly : List (String × PyVal))
    (h1 : env.get_customer_context (pyGet pred "customer_id") = [])
    (h2 : env.get_customer_context (pyGet anomaly "customer_id") = []) :
    process_customer_risk_item env kpi_context acc pred = acc ∧
    process_anomaly_item env kpi_context acc anomaly = acc := by
  constructor
  · simp [process_customer_risk_item, process_customer_risk, h1, pyTruthy]
  · simp [process_anomaly_item, process_anomaly, h2, pyTruthy]

/-- Demonstration environment whose customer-detail lookup always returns
the empty dict. -/
def envNoDetail : CycleEnv :=
  { now_start := "2024-05-01T10:00:00"
    now_end := "2024-05-01T10:05:00"
    duration := 300
    extract_churn_data := Except.ok [PyVal.str "A"]
    predict_churn := Except.ok [[("customer_id", PyVal.str "A")]]
    detect_anomalies := fun _ => Except.ok []
    get_churn_kpis := Except.ok (PyVal.dict [])
    get_customer_context := fun _ => []
    analyze_churn_risk := fun _ _ _ => Except.ok failedDecision
    analyze_anomaly := fun _ _ _ => Except.ok failedDecision
    channelSend := fun _ _ => Except.ok
      { action_type := "none", status := "skipped", reason := "" } }

/-- Witness for C8 at a concrete item and accumulator. -/
theorem C8_empty_lookup_skips_witness :
    process_customer_risk_item envNoDetail (PyVal.dict [])
        (initCycleResult envNoDetail) [("customer_id", PyVal.str "A")] =
      initCycleResult envNoDetail ∧
    process_anomaly_item envNoDetail (PyVal.dict [])
        (initCycleResult envNoDetail) [("customer_id", PyVal.str "A")] =
      initCycleResult envNoDetail :=
  C8_empty_lookup_skips envNoDetail (PyVal.dict [])
    (initCycleResult envNoDetail) [("customer_id", PyVal.str "A")]
    [("customer_id", PyVal.str "A")] rfl rfl

/-- C1 (amended): if the extraction, prediction, or KPI-fetch stage raises,
`run_churn_analysis_cycle` still returns a CycleResult (it is a total
function — nothing propagates to the caller) whose errors list contains
exactly the one cycle-level entry for that failure; but `cycle_end` is NOT
populated on this path — main.py lines 119-120 set it only on the no-raise
path, and the handler of lines 128-132 returns without setting it. (The
anomaly-detection stage `_detect_all_anomalies` catches its per-metric
failures internally and cannot itself raise.) -/
theorem C1_stage_failure (env : CycleEnv) :
    (∀ e, env.extract_churn_data = Except.error e →
      (run_churn_analysis_cycle env).errors = [criticalMsg e] ∧
      (run_churn_analysis_cycle env).cycle_end = Option.none) ∧
    (∀ cd e, env.extract_churn_data = Except.ok cd →
      env.predict_churn = Except.error e →
      (run_churn_analysis_cycle env).errors = [criticalMsg e] ∧
      (run_churn_analysis_cycle env).cycle_end = Option.none) ∧
    (∀ cd ps e, env.extract_churn_data = Except.ok cd →
      env.predict_churn = Except.ok ps →
      env.get_churn_kpis = Except.error e →
      (run_churn_analysis_cycle env).errors = [criticalMsg e] ∧
      (run_churn_analysis_cycle env).cycle_end = Option.none) := by
  refine ⟨?_, ?_, ?_⟩
  · intro e h
    constructor <;> simp [run_churn_analysis_cycle, h, initCycleResult]
  · intro cd e h1 h2
    constructor <;> simp [run_churn_analysis_cycle, h1, h2, initCycleResult]
  · intro cd ps e h1 h2 h3
    constructor <;>
      simp [run_churn_analysis_cycle, h1, h2, h3, initCycleResult]

/-- Demonstration environment whose warehouse extraction stage raises. -/
def envStageFail : CycleEnv :=
  { now_start := "2024-05-01T10:00:00"
    now_end := "2024-05-01T10:05:00"
    duration := 300
    extract_churn_data := Except.error "Connection refused"
    predict_churn := Except.ok []
    detect_anomalies := fun _ => Except.ok []
    get_churn_kpis := Except.ok (PyVal.dict [])
    get_customer_context := fun _ => []
    analyze_churn_risk := fun _ _ _ => Except.ok failedDecision
    analyze_anomaly := fun _ _ _ => Except.ok failedDecision
    channelSend := fun _ _ => Except.ok
      { action_type := "none", status := "skipped", reason := "" } }

/-- C1 counterexample: with the extraction stage raising, the returned
CycleResult does carry exactly one error entry, but its `cycle_end` key is
absent (lines 119-120 of main.py never ran), so the claim that `cycle_end`
is still populated is false. -/
theorem C1_counterexample :
    (run_churn_analysis_cycle envStageFail).errors.length = 1 ∧
    (run_churn_analysis_cycle envStageFail).cycle_end = Option.none :=
  ⟨rfl, rfl⟩

/-- Witness for C1 (amended) at the concrete extraction-failure
environment. -/
theorem C1_stage_failure_witness :
    (run_churn_analysis_cycle envStageFail).errors =
      [criticalMsg "Connection refused"] ∧
    (run_churn_analysis_cycle envStageFail).cycle_end = Option.none :=
  (C1_stage_failure envStageFail).1 "Connection refused" rfl

/-- Environment in which every collaborator succeeds and returns empty data:
no extracted rows, no at-risk customers, no anomalies for any metric. -/
def envAllEmpty : CycleEnv :=
  { now_start := "2024-05-01T10:00:00"
    now_end := "2024-05-01T10:05:00"
    duration := 300
    extract_churn_data := Except.ok []
    predict_churn := Except.ok []
    detect_anomalies := fun _ => Except.ok []
    get_churn_kpis := Except.ok (PyVal.dict [])
    get_customer_context := fun _ => []
    analyze_churn_risk := fun _ _ _ => Except.ok failedDecision
    analyze_anomaly := fun _ _ _ => Except.ok failedDecision
    channelSend := fun _ _ => Except.ok
      { action_type := "none", status := "skipped", reason := "" } }

/-- C9: with zero at-risk customers and zero anomalies (and an empty
extraction) every counter of the returned CycleResult is 0, but the errors
list is NOT empty: `_detect_all_anomalies` returns a plain Python list and
main.py line 111 calls `.iterrows()` on it, which raises AttributeError on
every cycle that reaches Step 6; the cycle-level handler records that one
error and returns without `cycle_end`. This contradicts the documented
intent of the anomaly loop, so the claim is counted against the code. -/
theorem C9_empty_cycle_iterrows_bug :
    run_churn_analysis_cycle envAllEmpty =
      { cycle_start := "2024-05-01T10:00:00"
        customers_analyzed := 0
        churn_predictions := 0
        anomalies_detected := 0
        actions_executed := 0
        successful_actions := 0
        failed_actions := 0
        errors := [criticalMsg
          "\x27list\x27 object has no attribute \x27iterrows\x27"]
        cycle_end := Option.none
        cycle_duration_seconds := Option.none } :=
  rfl
